import Mathlib

/-!
# Verification of the Printful API client's request/response normalization

Shallow embedding of the implemented endpoint methods of
`PrintfulAcountClient` (src/unnamed/part_000) and `MockupGeneratorAPI`
(src/src/lib/mockup-generator.ts).

Modelling choices:
* JavaScript values that flow through the client are modelled by the `Json`
  inductive type.  A JS `undefined` produced by destructuring a missing
  object field is modelled as `Json.null` (no claim distinguishes the two).
* Each endpoint method `m(args)` of the source is split into
  `m_request` (the URL/method/headers/body it builds) and `m_handle`
  (the envelope-to-result normalization), composed in `m`, which consumes a
  `Transport`.  A `Transport` models `fetch` followed by `response.json()`:
  it either produces the parsed envelope or a transport/parse `Fault`.
  The source wraps neither `fetch` nor `json()` in try/catch, so a fault
  short-circuits the method (`Except.error`), exactly as a thrown JS
  exception propagates out of the `async` method.
* JS string coercions are embedded explicitly: numbers via `toString`,
  booleans as `"true"/"false"`, `undefined` concatenated into a string as
  `"undefined"`, and an object literal concatenated into a string as
  `"[object Object]"` (relevant to `createSyncVariant`, whose source
  concatenates `{id}`, an object literal, into the URL).
-/

namespace Printful

/-- JSON values (JS objects/arrays/primitives flowing through the client). -/
inductive Json where
  | null : Json
  | bool : Bool → Json
  | num : Int → Json
  | str : String → Json
  | arr : List Json → Json
  | obj : List (String × Json) → Json
deriving Repr

/-- Field lookup on a JS object, as used by destructuring in the source
(`const {items: templates} = await result`).  A missing field or a
non-object receiver yields `undefined`, modelled as `Json.null`. -/
def Json.getField : Json → String → Json
  | .obj fields, k =>
    match fields.find? (fun p => p.1 = k) with
    | some p => p.2
    | none => .null
  | _, _ => .null

/-- Render an integer the way JS string concatenation renders a number. -/
def jsInt (n : Int) : String := toString n

/-- Render a boolean the way JS string concatenation renders it. -/
def jsBool (b : Bool) : String := if b then "true" else "false"

/-- Render a possibly-`undefined` number the way JS string concatenation
does: `undefined` becomes the literal string "undefined". -/
def jsOptInt : Option Int → String
  | none => "undefined"
  | some n => jsInt n

/-- `id : number | string` arguments of the source: an integer id or an
external id string (conventionally `@`-prefixed). -/
inductive PfId where
  | intId (n : Int) : PfId
  | strId (s : String) : PfId
deriving Repr, DecidableEq

/-- Render an id the way JS string concatenation renders it: numbers via
decimal notation, strings verbatim. -/
def jsId : PfId → String
  | .intId n => jsInt n
  | .strId s => s

/-- One hexadecimal digit (uppercase), for percent-encoding. -/
def hexDigit (n : Nat) : Char :=
  if n < 10 then Char.ofNat (48 + n) else Char.ofNat (55 + n)

/-- The UTF-8 byte sequence of one character (bytes as `Nat < 256`). -/
def utf8Bytes (c : Char) : List Nat :=
  let n := c.toNat
  if n < 0x80 then [n]
  else if n < 0x800 then [0xC0 + n / 64, 0x80 + n % 64]
  else if n < 0x10000 then [0xE0 + n / 4096, 0x80 + (n / 64) % 64, 0x80 + n % 64]
  else [0xF0 + n / 262144, 0x80 + (n / 4096) % 64, 0x80 + (n / 64) % 64, 0x80 + n % 64]

/-- `URLSearchParams` percent-encoding of a single UTF-8 byte
(application/x-www-form-urlencoded: alphanumerics and `*-._` kept,
space becomes `+`, everything else `%XX`). -/
def formEncodeByte (n : Nat) : String :=
  if (48 ≤ n ∧ n ≤ 57) ∨ (65 ≤ n ∧ n ≤ 90) ∨ (97 ≤ n ∧ n ≤ 122)
      ∨ n = 42 ∨ n = 45 ∨ n = 46 ∨ n = 95 then
    String.singleton (Char.ofNat n)
  else if n = 32 then "+"
  else "%" ++ String.singleton (hexDigit (n / 16)) ++ String.singleton (hexDigit (n % 16))

/-- `URLSearchParams` encoding of a string: encode each UTF-8 byte. -/
def formEncode (s : String) : String :=
  (s.data.flatMap utf8Bytes).foldl (fun acc b => acc ++ formEncodeByte b) ""

/-- `URLSearchParams.toString()`: ampersand-separated `key=value` pairs,
both sides form-encoded, in insertion order. -/
def searchParamsToString (ps : List (String × String)) : String :=
  String.intercalate "&" (ps.map (fun p => formEncode p.1 ++ "=" ++ formEncode p.2))

/-- Escape one character of a JSON string literal per `JSON.stringify`. -/
def jsonEscapeChar (c : Char) : String :=
  if c = '"' then "\\\""
  else if c = '\\' then "\\\\"
  else if c = '\n' then "\\n"
  else if c = '\t' then "\\t"
  else if c = '\r' then "\\r"
  else if c = '\x08' then "\\b"
  else if c = '\x0c' then "\\f"
  else if c.toNat < 32 then
    "\\u00" ++ String.singleton (hexDigit (c.toNat / 16)) ++ String.singleton (hexDigit (c.toNat % 16))
  else String.singleton c

/-- `JSON.stringify` of a string value. -/
def jsonQuote (s : String) : String :=
  "\"" ++ s.data.foldl (fun acc c => acc ++ jsonEscapeChar c) "" ++ "\""

mutual
/-- `JSON.stringify` (compact form, object keys in insertion order). -/
def Json.stringify : Json → String
  | .null => "null"
  | .bool b => jsBool b
  | .num n => jsInt n
  | .str s => jsonQuote s
  | .arr xs => "[" ++ stringifyList xs ++ "]"
  | .obj fs => "\x7b" ++ stringifyFields fs ++ "\x7d"

/-- Comma-separated serialization of array elements. -/
def Json.stringifyList : List Json → String
  | [] => ""
  | [x] => x.stringify
  | x :: xs => x.stringify ++ "," ++ stringifyList xs

/-- Comma-separated serialization of object fields. -/
def Json.stringifyFields : List (String × Json) → String
  | [] => ""
  | [(k, v)] => jsonQuote k ++ ":" ++ v.stringify
  | (k, v) :: fs => jsonQuote k ++ ":" ++ v.stringify ++ "," ++ stringifyFields fs
end

/-- The `{result, code, error, paging}` envelope the remote returns,
as destructured by every endpoint method.  Absent fields are `Json.null`. -/
structure Envelope where
  code : Int
  result : Json := Json.null
  error : Json := Json.null
  paging : Json := Json.null
deriving Repr

/-- The HTTP request an endpoint method hands to `fetch`. -/
structure Request where
  url : String
  verb : String := "GET"
  headers : List (String × String)
  body : Option String := none
deriving Repr

/-- A transport/parse-level failure: network fault, timeout, or a
malformed (non-JSON) response body.  Opaque to the client. -/
def Fault := String
deriving instance DecidableEq for Fault

/-- The composition of `fetch` and `response.json()`: yields the parsed
envelope, or throws (models the JS exception as `Except.error`). -/
def Transport := Request → Except Fault Envelope

/-- A mock remote that answers every request with the same envelope. -/
def mockRemote (e : Envelope) : Transport := fun _ => .ok e

/-- A remote whose transport fails (network fault / malformed JSON). -/
def faultyRemote (f : Fault) : Transport := fun _ => .error f

/-- Client configuration fixed at construction
(`PrintfulAcountClient.constructor`). -/
structure Client where
  origin : String
  headers : List (String × String)
deriving Repr, DecidableEq

/-- `new PrintfulAcountClient(auth)`: fixed origin, and the
`Authorization: "Bearer " + (auth || "")` header (a JS `undefined` token is
`none`; `auth || ""` maps both `undefined` and `""` to `""`). -/
def mkClient (auth : Option String) : Client :=
  { origin := "https://api.printful.com"
    headers := [("Authorization", "Bearer " ++ auth.getD "")] }

/-! ## Products API (src/unnamed/part_000) -/

/-- Request of `getSyncProducts(offset=0, limit=20, category_id="")`:
`GET origin + "/store/products?offset=" + offset + "&limit=" + limit`
plus `"&category_id=" + category_id` when `category_id` is truthy
(a JS string is falsy exactly when it is `""`). -/
def getSyncProducts_request (c : Client) (offset limit : Int) (category_id : String) : Request :=
  { url := c.origin ++ "/store/products?" ++ "offset=" ++ jsInt offset ++ "&limit=" ++ jsInt limit
            ++ (if category_id ≠ "" then "&category_id=" ++ category_id else "")
    headers := c.headers }

/-- Envelope normalization of `getSyncProducts`: on `code >= 400` return
`{products: [], paging: {offset, limit}, error}`, else
`{products: result, paging, error: {}}`. -/
def getSyncProducts_handle (offset limit : Int) (e : Envelope) : Json :=
  if e.code ≥ 400 then
    .obj [("products", .arr []),
          ("paging", .obj [("offset", .num offset), ("limit", .num limit)]),
          ("error", e.error)]
  else
    .obj [("products", e.result), ("paging", e.paging), ("error", .obj [])]

/-- `getSyncProducts` run against a transport (no try/catch in source, so a
transport fault propagates). -/
def getSyncProducts (c : Client) (offset limit : Int) (category_id : String)
    (t : Transport) : Except Fault Json :=
  (t (getSyncProducts_request c offset limit category_id)).map
    (getSyncProducts_handle offset limit)

/-- Request of `createSyncProduct(sync_product, sync_variants)`:
`POST origin + "/store/products"` with body
`JSON.stringify({sync_product, sync_variants})`. -/
def createSyncProduct_request (c : Client) (sync_product sync_variants : Json) : Request :=
  { url := c.origin ++ "/store/products"
    verb := "POST"
    headers := c.headers
    body := some (Json.stringify (.obj [("sync_product", sync_product),
                                        ("sync_variants", sync_variants)])) }

/-- Envelope normalization of `createSyncProduct`. -/
def createSyncProduct_handle (e : Envelope) : Json :=
  if e.code ≥ 400 then .obj [("product", .obj []), ("error", e.error)]
  else .obj [("product", e.result), ("error", .obj [])]

/-- `createSyncProduct` run against a transport. -/
def createSyncProduct (c : Client) (sync_product sync_variants : Json)
    (t : Transport) : Except Fault Json :=
  (t (createSyncProduct_request c sync_product sync_variants)).map createSyncProduct_handle

/-- Request of `getSyncProduct(id)`: `GET origin + "/store/products/" + id`
(the id, integer or `@`-prefixed string, concatenated verbatim). -/
def getSyncProduct_request (c : Client) (id : PfId) : Request :=
  { url := c.origin ++ "/store/products/" ++ jsId id
    headers := c.headers }

/-- Envelope normalization of `getSyncProduct`: on `code >= 400` return
`{sync_product: {}, sync_variants: [], error}`, else destructure
`{sync_product, sync_variants}` out of `result`. -/
def getSyncProduct_handle (e : Envelope) : Json :=
  if e.code ≥ 400 then
    .obj [("sync_product", .obj []), ("sync_variants", .arr []), ("error", e.error)]
  else
    .obj [("sync_product", e.result.getField "sync_product"),
          ("sync_variants", e.result.getField "sync_variants"),
          ("error", .obj [])]

/-- `getSyncProduct` run against a transport. -/
def getSyncProduct (c : Client) (id : PfId) (t : Transport) : Except Fault Json :=
  (t (getSyncProduct_request c id)).map getSyncProduct_handle

/-- Request of `deleteSyncProduct(id)`: `DELETE origin + "/store/products/" + id`. -/
def deleteSyncProduct_request (c : Client) (id : PfId) : Request :=
  { url := c.origin ++ "/store/products/" ++ jsId id
    verb := "DELETE"
    headers := c.headers }

/-- Envelope normalization of `deleteSyncProduct`. -/
def deleteSyncProduct_handle (e : Envelope) : Json :=
  if e.code ≥ 400 then .obj [("result", .arr []), ("error", e.error)]
  else .obj [("result", e.result), ("error", .obj [])]

/-- `deleteSyncProduct` run against a transport. -/
def deleteSyncProduct (c : Client) (id : PfId) (t : Transport) : Except Fault Json :=
  (t (deleteSyncProduct_request c id)).map deleteSyncProduct_handle

/-- Request of `modifySyncProduct(id, sync_product, sync_variants)`:
`PUT origin + "/store/products/" + id` with body
`JSON.stringify({sync_product, sync_variants})`. -/
def modifySyncProduct_request (c : Client) (id : PfId) (sync_product sync_variants : Json) :
    Request :=
  { url := c.origin ++ "/store/products/" ++ jsId id
    verb := "PUT"
    headers := c.headers
    body := some (Json.stringify (.obj [("sync_product", sync_product),
                                        ("sync_variants", sync_variants)])) }

/-- Envelope normalization of `modifySyncProduct`. -/
def modifySyncProduct_handle (e : Envelope) : Json :=
  if e.code ≥ 400 then .obj [("product", .obj []), ("error", e.error)]
  else .obj [("product", e.result), ("error", .obj [])]

/-- `modifySyncProduct` run against a transport. -/
def modifySyncProduct (c : Client) (id : PfId) (sync_product sync_variants : Json)
    (t : Transport) : Except Fault Json :=
  (t (modifySyncProduct_request c id sync_product sync_variants)).map modifySyncProduct_handle

/-- Request of `getSyncVariant(id)`: `GET origin + "/store/variants/" + id`. -/
def getSyncVariant_request (c : Client) (id : PfId) : Request :=
  { url := c.origin ++ "/store/variants/" ++ jsId id
    headers := c.headers }

/-- Envelope normalization of `getSyncVariant`. -/
def getSyncVariant_handle (e : Envelope) : Json :=
  if e.code ≥ 400 then .obj [("variant", .obj []), ("error", e.error)]
  else .obj [("variant", e.result), ("error", .obj [])]

/-- `getSyncVariant` run against a transport. -/
def getSyncVariant (c : Client) (id : PfId) (t : Transport) : Except Fault Json :=
  (t (getSyncVariant_request c id)).map getSyncVariant_handle

/-- Request of `deleteSyncVariant(id)`: `DELETE origin + "/store/variants/" + id`. -/
def deleteSyncVariant_request (c : Client) (id : PfId) : Request :=
  { url := c.origin ++ "/store/variants/" ++ jsId id
    verb := "DELETE"
    headers := c.headers }

/-- Envelope normalization of `deleteSyncVariant`. -/
def deleteSyncVariant_handle (e : Envelope) : Json :=
  if e.code ≥ 400 then .obj [("result", .arr []), ("error", e.error)]
  else .obj [("result", e.result), ("error", .obj [])]

/-- `deleteSyncVariant` run against a transport. -/
def deleteSyncVariant (c : Client) (id : PfId) (t : Transport) : Except Fault Json :=
  (t (deleteSyncVariant_request c id)).map deleteSyncVariant_handle

/-- Request of `modifySyncVariant(id, sync_variant)`:
`PUT origin + "/store/variants/" + id` with body `JSON.stringify(sync_variant)`. -/
def modifySyncVariant_request (c : Client) (id : PfId) (sync_variant : Json) : Request :=
  { url := c.origin ++ "/store/variants/" ++ jsId id
    verb := "PUT"
    headers := c.headers
    body := some (Json.stringify sync_variant) }

/-- Envelope normalization of `modifySyncVariant`. -/
def modifySyncVariant_handle (e : Envelope) : Json :=
  if e.code ≥ 400 then .obj [("variant", .obj []), ("error", e.error)]
  else .obj [("variant", e.result), ("error", .obj [])]

/-- `modifySyncVariant` run against a transport. -/
def modifySyncVariant (c : Client) (id : PfId) (sync_variant : Json)
    (t : Transport) : Except Fault Json :=
  (t (modifySyncVariant_request c id sync_variant)).map modifySyncVariant_handle

/-- Request of `createSyncVariant(id, sync_variant)`.  The source builds the
URL as `origin + "/store/products/" + {id} + "/variants"`: `{id}` is a JS
object literal, and concatenating an object into a string yields the
literal `"[object Object]"`, whatever `id` holds. -/
def createSyncVariant_request (c : Client) (id : PfId) (sync_variant : Json) : Request :=
  let _ := id
  { url := c.origin ++ "/store/products/" ++ "[object Object]" ++ "/variants"
    verb := "POST"
    headers := c.headers
    body := some (Json.stringify sync_variant) }

/-- Envelope normalization of `createSyncVariant`. -/
def createSyncVariant_handle (e : Envelope) : Json :=
  if e.code ≥ 400 then .obj [("variant", .obj []), ("error", e.error)]
  else .obj [("variant", e.result), ("error", .obj [])]

/-- `createSyncVariant` run against a transport. -/
def createSyncVariant (c : Client) (id : PfId) (sync_variant : Json)
    (t : Transport) : Except Fault Json :=
  (t (createSyncVariant_request c id sync_variant)).map createSyncVariant_handle

/-! ## Product Templates API (src/unnamed/part_000) -/

/-- Request of `getProductTemplates(offset=0, limit=20)`:
`GET origin + "/product-templates?offset=" + offset + "&limit=" + limit`. -/
def getProductTemplates_request (c : Client) (offset limit : Int) : Request :=
  { url := c.origin ++ "/product-templates" ++ "?offset=" ++ jsInt offset
            ++ "&limit=" ++ jsInt limit
    headers := c.headers }

/-- Envelope normalization of `getProductTemplates`: on success the payload
is the `items` sub-field of `result`. -/
def getProductTemplates_handle (offset limit : Int) (e : Envelope) : Json :=
  if e.code ≥ 400 then
    .obj [("templates", .arr []),
          ("paging", .obj [("offset", .num offset), ("limit", .num limit)]),
          ("error", e.error)]
  else
    .obj [("templates", e.result.getField "items"), ("paging", e.paging), ("error", .obj [])]

/-- `getProductTemplates` run against a transport. -/
def getProductTemplates (c : Client) (offset limit : Int) (t : Transport) :
    Except Fault Json :=
  (t (getProductTemplates_request c offset limit)).map (getProductTemplates_handle offset limit)

/-- Request of `getProductTemplate(id)`: `GET origin + "/product-templates/" + id`. -/
def getProductTemplate_request (c : Client) (id : PfId) : Request :=
  { url := c.origin ++ "/product-templates/" ++ jsId id
    headers := c.headers }

/-- Envelope normalization of `getProductTemplate`. -/
def getProductTemplate_handle (e : Envelope) : Json :=
  if e.code ≥ 400 then .obj [("template", .obj []), ("error", e.error)]
  else .obj [("template", e.result), ("error", .obj [])]

/-- `getProductTemplate` run against a transport. -/
def getProductTemplate (c : Client) (id : PfId) (t : Transport) : Except Fault Json :=
  (t (getProductTemplate_request c id)).map getProductTemplate_handle

/-- Request of `deleteProductTemplate(id)`:
`DELETE origin + "/product-templates/" + id`. -/
def deleteProductTemplate_request (c : Client) (id : PfId) : Request :=
  { url := c.origin ++ "/product-templates/" ++ jsId id
    verb := "DELETE"
    headers := c.headers }

/-- Envelope normalization of `deleteProductTemplate`: on success the payload
is the `success` sub-field of `result`; on failure it is `false`. -/
def deleteProductTemplate_handle (e : Envelope) : Json :=
  if e.code ≥ 400 then .obj [("success", .bool false), ("error", e.error)]
  else .obj [("success", e.result.getField "success"), ("error", .obj [])]

/-- `deleteProductTemplate` run against a transport. -/
def deleteProductTemplate (c : Client) (id : PfId) (t : Transport) : Except Fault Json :=
  (t (deleteProductTemplate_request c id)).map deleteProductTemplate_handle

/-! ## Orders API (src/unnamed/part_000) -/

/-- Request of `getOrders(offset=0, limit=20, status)`:
`GET origin + "/orders?offset=" + offset + "&limit=" + limit + "&status=" + status`
(status is always appended, not optional). -/
def getOrders_request (c : Client) (offset limit : Int) (status : String) : Request :=
  { url := c.origin ++ "/orders" ++ "?offset=" ++ jsInt offset ++ "&limit=" ++ jsInt limit
            ++ "&status=" ++ status
    headers := c.headers }

/-- Envelope normalization of `getOrders`. -/
def getOrders_handle (offset limit : Int) (e : Envelope) : Json :=
  if e.code ≥ 400 then
    .obj [("orders", .arr []),
          ("paging", .obj [("offset", .num offset), ("limit", .num limit)]),
          ("error", e.error)]
  else
    .obj [("orders", e.result), ("paging", e.paging), ("error", .obj [])]

/-- `getOrders` run against a transport. -/
def getOrders (c : Client) (offset limit : Int) (status : String) (t : Transport) :
    Except Fault Json :=
  (t (getOrders_request c offset limit status)).map (getOrders_handle offset limit)

/-- Request of `createOrder(newOrder, confirm=false, update_existing=false)`:
`POST origin + "/orders?confirm=" + confirm + "&update_existing=" + update_existing`
with body `JSON.stringify(newOrder)`. -/
def createOrder_request (c : Client) (newOrder : Json) (confirm update_existing : Bool) :
    Request :=
  { url := c.origin ++ "/orders" ++ "?confirm=" ++ jsBool confirm
            ++ "&update_existing=" ++ jsBool update_existing
    verb := "POST"
    headers := c.headers
    body := some (Json.stringify newOrder) }

/-- Envelope normalization of `createOrder`.  Note the success branch of the
source is `return {order, error}`: unlike every other method, it returns the
envelope's `error` field verbatim instead of `{}`. -/
def createOrder_handle (e : Envelope) : Json :=
  if e.code ≥ 400 then .obj [("order", .obj []), ("error", e.error)]
  else .obj [("order", e.result), ("error", e.error)]

/-- `createOrder` run against a transport. -/
def createOrder (c : Client) (newOrder : Json) (confirm update_existing : Bool)
    (t : Transport) : Except Fault Json :=
  (t (createOrder_request c newOrder confirm update_existing)).map createOrder_handle

/-! ## Mockup Generator API (src/src/lib/mockup-generator.ts) -/

/-- `params.append(key, v)` guarded by JS truthiness of `v`
(`v && params.append(key, v)` skips `undefined` and `""`). -/
def appendIfTruthy (ps : List (String × String)) (key : String) (v : Option String) :
    List (String × String) :=
  match v with
  | none => ps
  | some s => if s = "" then ps else ps ++ [(key, s)]

/-- Request of `createMockupTask(id, mockup_task)`:
`POST origin + "/mockup-generator/create-task/" + id` with body
`JSON.stringify(mockup_task)`. -/
def createMockupTask_request (c : Client) (id : Int) (mockup_task : Json) : Request :=
  { url := c.origin ++ "/mockup-generator/create-task/" ++ jsInt id
    verb := "POST"
    headers := c.headers
    body := some (Json.stringify mockup_task) }

/-- Envelope normalization of `createMockupTask`: `null` empties. -/
def createMockupTask_handle (e : Envelope) : Json :=
  if e.code ≥ 400 then .obj [("task", .null), ("error", e.error)]
  else .obj [("task", e.result), ("error", .null)]

/-- `createMockupTask` run against a transport. -/
def createMockupTask (c : Client) (id : Int) (mockup_task : Json) (t : Transport) :
    Except Fault Json :=
  (t (createMockupTask_request c id mockup_task)).map createMockupTask_handle

/-- Request of `getProductVariantPrintFiles(id?, orientation?, technique?)`:
`GET origin + "/mockup-generator/printfiles/" + id + "?" + params`, where the
optional `id : number` concatenates as `"undefined"` when absent, and
`orientation`/`technique` are appended to `URLSearchParams` only when truthy. -/
def getProductVariantPrintFiles_request (c : Client) (id : Option Int)
    (orientation technique : Option String) : Request :=
  let params := appendIfTruthy (appendIfTruthy [] "orientation" orientation)
                  "technique" technique
  { url := c.origin ++ "/mockup-generator/printfiles/" ++ jsOptInt id ++ "?"
            ++ searchParamsToString params
    headers := c.headers }

/-- Envelope normalization of `getProductVariantPrintFiles`: `null` empties. -/
def getProductVariantPrintFiles_handle (e : Envelope) : Json :=
  if e.code ≥ 400 then .obj [("files", .null), ("error", e.error)]
  else .obj [("files", e.result), ("error", .null)]

/-- `getProductVariantPrintFiles` run against a transport. -/
def getProductVariantPrintFiles (c : Client) (id : Option Int)
    (orientation technique : Option String) (t : Transport) : Except Fault Json :=
  (t (getProductVariantPrintFiles_request c id orientation technique)).map
    getProductVariantPrintFiles_handle

/-- Request of `getMockupTaskResult(task_key)`:
`GET origin + "/mockup-generator/task?" + new URLSearchParams({task_key})`. -/
def getMockupTaskResult_request (c : Client) (task_key : String) : Request :=
  { url := c.origin ++ "/mockup-generator/task?"
            ++ searchParamsToString [("task_key", task_key)]
    headers := c.headers }

/-- Envelope normalization of `getMockupTaskResult`: `null` empties. -/
def getMockupTaskResult_handle (e : Envelope) : Json :=
  if e.code ≥ 400 then .obj [("task", .null), ("error", e.error)]
  else .obj [("task", e.result), ("error", .null)]

/-- `getMockupTaskResult` run against a transport. -/
def getMockupTaskResult (c : Client) (task_key : String) (t : Transport) :
    Except Fault Json :=
  (t (getMockupTaskResult_request c task_key)).map getMockupTaskResult_handle

/-- Request of `getLayoutTemplates(id, orientation?, technique?)`:
`GET origin + "/mockup-generator/templates/" + id + "?" + params`. -/
def getLayoutTemplates_request (c : Client) (id : Int)
    (orientation technique : Option String) : Request :=
  let params := appendIfTruthy (appendIfTruthy [] "orientation" orientation)
                  "technique" technique
  { url := c.origin ++ "/mockup-generator/templates/" ++ jsInt id ++ "?"
            ++ searchParamsToString params
    headers := c.headers }

/-- Envelope normalization of `getLayoutTemplates`: `null` empties. -/
def getLayoutTemplates_handle (e : Envelope) : Json :=
  if e.code ≥ 400 then .obj [("templates", .null), ("error", e.error)]
  else .obj [("templates", e.result), ("error", .null)]

/-- `getLayoutTemplates` run against a transport. -/
def getLayoutTemplates (c : Client) (id : Int) (orientation technique : Option String)
    (t : Transport) : Except Fault Json :=
  (t (getLayoutTemplates_request c id orientation technique)).map getLayoutTemplates_handle

/-- Extract a field of the object a successful normalized call returned
(`Json.null` on a transport fault). -/
def okField (r : Except Fault Json) (k : String) : Json :=
  match r with
  | .ok j => j.getField k
  | .error _ => Json.null

end Printful

namespace Printful

/-- C1, counterexample: on the envelope
`{code: 200, result: {}, error: {message: "boom"}}` — a `code < 400`
envelope — `createOrder` returns `{order: {}, error: {message: "boom"}}`:
its returned error field is the envelope's error verbatim, neither the
empty object nor null, refuting "for every implemented endpoint method …
the returned error field is empty/null". -/
theorem C1_counterexample :
    createOrder (mkClient none) (Json.obj []) false false
      (mockRemote { code := 200, result := Json.obj [],
                    error := Json.obj [("message", Json.str "boom")] })
      = .ok (Json.obj [("order", Json.obj []),
                       ("error", Json.obj [("message", Json.str "boom")])])
    ∧ Json.obj [("message", Json.str "boom")] ≠ Json.obj []
    ∧ Json.obj [("message", Json.str "boom")] ≠ Json.null := by
  refine ⟨rfl, ?_, ?_⟩ <;> simp

/-- C1 (amended): for every implemented endpoint method except
`createOrder`, when the envelope has `code < 400` the returned error field
is empty/null and the payload field equals the envelope's `result` (or its
documented sub-field); `createOrder` returns the payload `result` together
with the envelope's `error` field verbatim (so its error field is empty
only when the envelope's is).  In particular `getSyncProducts(0, 20)` on
the envelope `{code: 200, result: [{id: 1}], paging: {offset: 0, limit: 20,
total: 1}}` returns `{products: [{id: 1}], paging: {offset: 0, limit: 20,
total: 1}, error: {}}`. -/
theorem C1_success_normalizes :
    (∀ (auth : Option String) (offset limit : Int) (category_id : String) (e : Envelope),
      e.code < 400 →
      getSyncProducts (mkClient auth) offset limit category_id (mockRemote e)
        = .ok (.obj [("products", e.result), ("paging", e.paging), ("error", .obj [])]))
  ∧ (∀ (auth : Option String) (sp sv : Json) (e : Envelope),
      e.code < 400 →
      createSyncProduct (mkClient auth) sp sv (mockRemote e)
        = .ok (.obj [("product", e.result), ("error", .obj [])]))
  ∧ (∀ (auth : Option String) (id : PfId) (e : Envelope),
      e.code < 400 →
      getSyncProduct (mkClient auth) id (mockRemote e)
        = .ok (.obj [("sync_product", e.result.getField "sync_product"),
                     ("sync_variants", e.result.getField "sync_variants"),
                     ("error", .obj [])]))
  ∧ (∀ (auth : Option String) (id : PfId) (e : Envelope),
      e.code < 400 →
      deleteSyncProduct (mkClient auth) id (mockRemote e)
        = .ok (.obj [("result", e.result), ("error", .obj [])]))
  ∧ (∀ (auth : Option String) (id : PfId) (sp sv : Json) (e : Envelope),
      e.code < 400 →
      modifySyncProduct (mkClient auth) id sp sv (mockRemote e)
        = .ok (.obj [("product", e.result), ("error", .obj [])]))
  ∧ (∀ (auth : Option String) (id : PfId) (e : Envelope),
      e.code < 400 →
      getSyncVariant (mkClient auth) id (mockRemote e)
        = .ok (.obj [("variant", e.result), ("error", .obj [])]))
  ∧ (∀ (auth : Option String) (id : PfId) (e : Envelope),
      e.code < 400 →
      deleteSyncVariant (mkClient auth) id (mockRemote e)
        = .ok (.obj [("result", e.result), ("error", .obj [])]))
  ∧ (∀ (auth : Option String) (id : PfId) (sv : Json) (e : Envelope),
      e.code < 400 →
      modifySyncVariant (mkClient auth) id sv (mockRemote e)
        = .ok (.obj [("variant", e.result), ("error", .obj [])]))
  ∧ (∀ (auth : Option String) (id : PfId) (sv : Json) (e : Envelope),
      e.code < 400 →
      createSyncVariant (mkClient auth) id sv (mockRemote e)
        = .ok (.obj [("variant", e.result), ("error", .obj [])]))
  ∧ (∀ (auth : Option String) (offset limit : Int) (e : Envelope),
      e.code < 400 →
      getProductTemplates (mkClient auth) offset limit (mockRemote e)
        = .ok (.obj [("templates", e.result.getField "items"),
                     ("paging", e.paging), ("error", .obj [])]))
  ∧ (∀ (auth : Option String) (id : PfId) (e : Envelope),
      e.code < 400 →
      getProductTemplate (mkClient auth) id (mockRemote e)
        = .ok (.obj [("template", e.result), ("error", .obj [])]))
  ∧ (∀ (auth : Option String) (id : PfId) (e : Envelope),
      e.code < 400 →
      deleteProductTemplate (mkClient auth) id (mockRemote e)
        = .ok (.obj [("success", e.result.getField "success"), ("error", .obj [])]))
  ∧ (∀ (auth : Option String) (offset limit : Int) (status : String) (e : Envelope),
      e.code < 400 →
      getOrders (mkClient auth) offset limit status (mockRemote e)
        = .ok (.obj [("orders", e.result), ("paging", e.paging), ("error", .obj [])]))
  ∧ (∀ (auth : Option String) (newOrder : Json) (confirm update_existing : Bool)
        (e : Envelope),
      e.code < 400 →
      createOrder (mkClient auth) newOrder confirm update_existing (mockRemote e)
        = .ok (.obj [("order", e.result), ("error", e.error)]))
  ∧ (∀ (auth : Option String) (id : Int) (mockup_task : Json) (e : Envelope),
      e.code < 400 →
      createMockupTask (mkClient auth) id mockup_task (mockRemote e)
        = .ok (.obj [("task", e.result), ("error", .null)]))
  ∧ (∀ (auth : Option String) (id : Option Int) (o tq : Option String) (e : Envelope),
      e.code < 400 →
      getProductVariantPrintFiles (mkClient auth) id o tq (mockRemote e)
        = .ok (.obj [("files", e.result), ("error", .null)]))
  ∧ (∀ (auth : Option String) (task_key : String) (e : Envelope),
      e.code < 400 →
      getMockupTaskResult (mkClient auth) task_key (mockRemote e)
        = .ok (.obj [("task", e.result), ("error", .null)]))
  ∧ (∀ (auth : Option String) (id : Int) (o tq : Option String) (e : Envelope),
      e.code < 400 →
      getLayoutTemplates (mkClient auth) id o tq (mockRemote e)
        = .ok (.obj [("templates", e.result), ("error", .null)]))
  ∧ getSyncProducts (mkClient none) 0 20 ""
      (mockRemote { code := 200, result := .arr [.obj [("id", .num 1)]],
                    paging := .obj [("offset", .num 0), ("limit", .num 20),
                                    ("total", .num 1)] })
      = .ok (.obj [("products", .arr [.obj [("id", .num 1)]]),
                   ("paging", .obj [("offset", .num 0), ("limit", .num 20),
                                    ("total", .num 1)]),
                   ("error", .obj [])]) := by
  refine ⟨?_, ?_, ?_, ?_, ?_, ?_, ?_, ?_, ?_, ?_, ?_, ?_, ?_, ?_, ?_, ?_, ?_, ?_, rfl⟩ <;>
    (intros;
     simp only [getSyncProducts, createSyncProduct, getSyncProduct, deleteSyncProduct,
       modifySyncProduct, getSyncVariant, deleteSyncVariant, modifySyncVariant,
       createSyncVariant, getProductTemplates, getProductTemplate, deleteProductTemplate,
       getOrders, createOrder, createMockupTask, getProductVariantPrintFiles,
       getMockupTaskResult, getLayoutTemplates, mockRemote, Except.map,
       getSyncProducts_handle, createSyncProduct_handle, getSyncProduct_handle,
       deleteSyncProduct_handle, modifySyncProduct_handle, getSyncVariant_handle,
       deleteSyncVariant_handle, modifySyncVariant_handle, createSyncVariant_handle,
       getProductTemplates_handle, getProductTemplate_handle, deleteProductTemplate_handle,
       getOrders_handle, createOrder_handle, createMockupTask_handle,
       getProductVariantPrintFiles_handle, getMockupTaskResult_handle,
       getLayoutTemplates_handle];
     rw [if_neg (by omega)])

/-- C1, witness: the `getSyncProducts` conjunct at the concrete envelope
`{code: 200, result: [], paging: {}}`. -/
theorem C1_success_normalizes_witness :
    getSyncProducts (mkClient (some "tok")) 5 7 "cats"
      (mockRemote { code := 200, result := Json.arr [], paging := Json.obj [] })
      = .ok (Json.obj [("products", Json.arr []), ("paging", Json.obj []),
                       ("error", Json.obj [])]) :=
  C1_success_normalizes.1 (some "tok") 5 7 "cats"
    { code := 200, result := Json.arr [], paging := Json.obj [] } (by decide)

/-- C2: for every implemented endpoint method, when the envelope has
`code >= 400` the returned payload field equals that endpoint's fixed
empty value (`[]` for the list-shaped payloads, `{}`/`null` for the
object-shaped ones, `false` for `deleteProductTemplate`'s boolean) and the
returned error field is the envelope's `error`.  In particular
`getSyncProduct(999)` on `{code: 404, error: {message: "not found"}}`
returns `{sync_product: {}, sync_variants: [], error: {message: "not found"}}`. -/
theorem C2_error_normalizes :
    (∀ (auth : Option String) (offset limit : Int) (category_id : String) (e : Envelope),
      e.code ≥ 400 →
      getSyncProducts (mkClient auth) offset limit category_id (mockRemote e)
        = .ok (.obj [("products", .arr []),
                     ("paging", .obj [("offset", .num offset), ("limit", .num limit)]),
                     ("error", e.error)]))
  ∧ (∀ (auth : Option String) (sp sv : Json) (e : Envelope),
      e.code ≥ 400 →
      createSyncProduct (mkClient auth) sp sv (mockRemote e)
        = .ok (.obj [("product", .obj []), ("error", e.error)]))
  ∧ (∀ (auth : Option String) (id : PfId) (e : Envelope),
      e.code ≥ 400 →
      getSyncProduct (mkClient auth) id (mockRemote e)
        = .ok (.obj [("sync_product", .obj []), ("sync_variants", .arr []),
                     ("error", e.error)]))
  ∧ (∀ (auth : Option String) (id : PfId) (e : Envelope),
      e.code ≥ 400 →
      deleteSyncProduct (mkClient auth) id (mockRemote e)
        = .ok (.obj [("result", .arr []), ("error", e.error)]))
  ∧ (∀ (auth : Option String) (id : PfId) (sp sv : Json) (e : Envelope),
      e.code ≥ 400 →
      modifySyncProduct (mkClient auth) id sp sv (mockRemote e)
        = .ok (.obj [("product", .obj []), ("error", e.error)]))
  ∧ (∀ (auth : Option String) (id : PfId) (e : Envelope),
      e.code ≥ 400 →
      getSyncVariant (mkClient auth) id (mockRemote e)
        = .ok (.obj [("variant", .obj []), ("error", e.error)]))
  ∧ (∀ (auth : Option String) (id : PfId) (e : Envelope),
      e.code ≥ 400 →
      deleteSyncVariant (mkClient auth) id (mockRemote e)
        = .ok (.obj [("result", .arr []), ("error", e.error)]))
  ∧ (∀ (auth : Option String) (id : PfId) (sv : Json) (e : Envelope),
      e.code ≥ 400 →
      modifySyncVariant (mkClient auth) id sv (mockRemote e)
        = .ok (.obj [("variant", .obj []), ("error", e.error)]))
  ∧ (∀ (auth : Option String) (id : PfId) (sv : Json) (e : Envelope),
      e.code ≥ 400 →
      createSyncVariant (mkClient auth) id sv (mockRemote e)
        = .ok (.obj [("variant", .obj []), ("error", e.error)]))
  ∧ (∀ (auth : Option String) (offset limit : Int) (e : Envelope),
      e.code ≥ 400 →
      getProductTemplates (mkClient auth) offset limit (mockRemote e)
        = .ok (.obj [("templates", .arr []),
                     ("paging", .obj [("offset", .num offset), ("limit", .num limit)]),
                     ("error", e.error)]))
  ∧ (∀ (auth : Option String) (id : PfId) (e : Envelope),
      e.code ≥ 400 →
      getProductTemplate (mkClient auth) id (mockRemote e)
        = .ok (.obj [("template", .obj []), ("error", e.error)]))
  ∧ (∀ (auth : Option String) (id : PfId) (e : Envelope),
      e.code ≥ 400 →
      deleteProductTemplate (mkClient auth) id (mockRemote e)
        = .ok (.obj [("success", .bool false), ("error", e.error)]))
  ∧ (∀ (auth : Option String) (offset limit : Int) (status : String) (e : Envelope),
      e.code ≥ 400 →
      getOrders (mkClient auth) offset limit status (mockRemote e)
        = .ok (.obj [("orders", .arr []),
                     ("paging", .obj [("offset", .num offset), ("limit", .num limit)]),
                     ("error", e.error)]))
  ∧ (∀ (auth : Option String) (newOrder : Json) (confirm update_existing : Bool)
        (e : Envelope),
      e.code ≥ 400 →
      createOrder (mkClient auth) newOrder confirm update_existing (mockRemote e)
        = .ok (.obj [("order", .obj []), ("error", e.error)]))
  ∧ (∀ (auth : Option String) (id : Int) (mockup_task : Json) (e : Envelope),
      e.code ≥ 400 →
      createMockupTask (mkClient auth) id mockup_task (mockRemote e)
        = .ok (.obj [("task", .null), ("error", e.error)]))
  ∧ (∀ (auth : Option String) (id : Option Int) (o tq : Option String) (e : Envelope),
      e.code ≥ 400 →
      getProductVariantPrintFiles (mkClient auth) id o tq (mockRemote e)
        = .ok (.obj [("files", .null), ("error", e.error)]))
  ∧ (∀ (auth : Option String) (task_key : String) (e : Envelope),
      e.code ≥ 400 →
      getMockupTaskResult (mkClient auth) task_key (mockRemote e)
        = .ok (.obj [("task", .null), ("error", e.error)]))
  ∧ (∀ (auth : Option String) (id : Int) (o tq : Option String) (e : Envelope),
      e.code ≥ 400 →
      getLayoutTemplates (mkClient auth) id o tq (mockRemote e)
        = .ok (.obj [("templates", .null), ("error", e.error)]))
  ∧ getSyncProduct (mkClient none) (.intId 999)
      (mockRemote { code := 404, error := .obj [("message", .str "not found")] })
      = .ok (.obj [("sync_product", .obj []), ("sync_variants", .arr []),
                   ("error", .obj [("message", .str "not found")])]) := by
  refine ⟨?_, ?_, ?_, ?_, ?_, ?_, ?_, ?_, ?_, ?_, ?_, ?_, ?_, ?_, ?_, ?_, ?_, ?_, rfl⟩ <;>
    (intros;
     simp only [getSyncProducts, createSyncProduct, getSyncProduct, deleteSyncProduct,
       modifySyncProduct, getSyncVariant, deleteSyncVariant, modifySyncVariant,
       createSyncVariant, getProductTemplates, getProductTemplate, deleteProductTemplate,
       getOrders, createOrder, createMockupTask, getProductVariantPrintFiles,
       getMockupTaskResult, getLayoutTemplates, mockRemote, Except.map,
       getSyncProducts_handle, createSyncProduct_handle, getSyncProduct_handle,
       deleteSyncProduct_handle, modifySyncProduct_handle, getSyncVariant_handle,
       deleteSyncVariant_handle, modifySyncVariant_handle, createSyncVariant_handle,
       getProductTemplates_handle, getProductTemplate_handle, deleteProductTemplate_handle,
       getOrders_handle, createOrder_handle, createMockupTask_handle,
       getProductVariantPrintFiles_handle, getMockupTaskResult_handle,
       getLayoutTemplates_handle];
     rw [if_pos (by omega)])

/-- C2, witness: the `getSyncProducts` conjunct at the concrete envelope
`{code: 500, error: null}`. -/
theorem C2_error_normalizes_witness :
    getSyncProducts (mkClient none) 3 4 "" (mockRemote { code := 500 })
      = .ok (Json.obj [("products", Json.arr []),
                       ("paging", Json.obj [("offset", Json.num 3), ("limit", Json.num 4)]),
                       ("error", Json.null)]) :=
  C2_error_normalizes.1 none 3 4 "" { code := 500 } (by decide)

/-- C3: for each paginated list endpoint (`getSyncProducts`,
`getProductTemplates`, `getOrders`), on `code < 400` the returned `paging`
field is the envelope's `paging` object verbatim, and on `code >= 400` it is
`{offset, limit}` built from the caller's arguments, not from the envelope. -/
theorem C3_paging_passthrough :
    (∀ (auth : Option String) (offset limit : Int) (category_id : String) (e : Envelope),
      e.code < 400 →
      okField (getSyncProducts (mkClient auth) offset limit category_id (mockRemote e))
        "paging" = e.paging)
  ∧ (∀ (auth : Option String) (offset limit : Int) (category_id : String) (e : Envelope),
      e.code ≥ 400 →
      okField (getSyncProducts (mkClient auth) offset limit category_id (mockRemote e))
        "paging" = .obj [("offset", .num offset), ("limit", .num limit)])
  ∧ (∀ (auth : Option String) (offset limit : Int) (e : Envelope),
      e.code < 400 →
      okField (getProductTemplates (mkClient auth) offset limit (mockRemote e))
        "paging" = e.paging)
  ∧ (∀ (auth : Option String) (offset limit : Int) (e : Envelope),
      e.code ≥ 400 →
      okField (getProductTemplates (mkClient auth) offset limit (mockRemote e))
        "paging" = .obj [("offset", .num offset), ("limit", .num limit)])
  ∧ (∀ (auth : Option String) (offset limit : Int) (status : String) (e : Envelope),
      e.code < 400 →
      okField (getOrders (mkClient auth) offset limit status (mockRemote e))
        "paging" = e.paging)
  ∧ (∀ (auth : Option String) (offset limit : Int) (status : String) (e : Envelope),
      e.code ≥ 400 →
      okField (getOrders (mkClient auth) offset limit status (mockRemote e))
        "paging" = .obj [("offset", .num offset), ("limit", .num limit)]) := by
  refine ⟨?_, ?_, ?_, ?_, ?_, ?_⟩ <;>
    (intros;
     simp only [getSyncProducts, getProductTemplates, getOrders, mockRemote, Except.map,
       getSyncProducts_handle, getProductTemplates_handle, getOrders_handle];
     first
     | rw [if_pos (by omega)]
     | rw [if_neg (by omega)];
     rfl)

/-- C3, witness: the success conjunct of `getSyncProducts` at a concrete
envelope with a recognizable paging object. -/
theorem C3_paging_passthrough_witness :
    okField (getSyncProducts (mkClient none) 0 20 ""
      (mockRemote { code := 200, result := Json.arr [],
                    paging := Json.obj [("total", Json.num 42)] })) "paging"
      = Json.obj [("total", Json.num 42)] :=
  C3_paging_passthrough.1 none 0 20 ""
    { code := 200, result := Json.arr [], paging := Json.obj [("total", Json.num 42)] }
    (by decide)

/-- C4: the source of `createSyncVariant` concatenates the object literal
`{id}` — not `id` — into the URL, so for every id the path segment is the
literal `"[object Object]"`, never the id rendered verbatim; at the failing
input `id = 123` the URL differs from the verbatim
`…/store/products/123/variants`.  The sibling id-taking endpoints (shown
here for `getSyncProduct`) do render the id verbatim, which is the claimed
and clearly intended behavior. -/
theorem C4_createSyncVariant_id_not_verbatim :
    (∀ (auth : Option String) (id : PfId) (sv : Json),
      (createSyncVariant_request (mkClient auth) id sv).url
        = "https://api.printful.com/store/products/[object Object]/variants")
    ∧ (createSyncVariant_request (mkClient none) (.intId 123) (Json.obj [])).url
        ≠ "https://api.printful.com/store/products/123/variants"
    ∧ (∀ (auth : Option String) (id : PfId),
      (getSyncProduct_request (mkClient auth) id).url
        = "https://api.printful.com/store/products/" ++ jsId id) := by
  refine ⟨fun _ _ _ => rfl, by decide, fun _ _ => rfl⟩

/-- C5: for every order object, `createOrder(order, true, false)` issues a
POST whose URL is `…/orders?confirm=true&update_existing=false` (so it
contains `confirm=true&update_existing=false`) and whose request body is
the JSON serialization of the order. -/
theorem C5_createOrder_request_shape :
    ∀ (auth : Option String) (newOrder : Json),
      (createOrder_request (mkClient auth) newOrder true false).url
        = "https://api.printful.com/orders?confirm=true&update_existing=false"
      ∧ "confirm=true&update_existing=false".data
          <:+: (createOrder_request (mkClient auth) newOrder true false).url.data
      ∧ (createOrder_request (mkClient auth) newOrder true false).verb = "POST"
      ∧ (createOrder_request (mkClient auth) newOrder true false).body
          = some (Json.stringify newOrder) := by
  intro auth newOrder
  refine ⟨rfl, ?_, rfl, rfl⟩
  have h : (createOrder_request (mkClient auth) newOrder true false).url
      = "https://api.printful.com/orders?confirm=true&update_existing=false" := rfl
  rw [h]
  decide

/-- C6: for every endpoint method, a transport-level failure (network
fault, timeout, malformed JSON body — a thrown exception, modelled by
`faultyRemote f`) propagates out of the call unchanged as `Except.error f`;
it is never converted into the normalized `.ok` payload/error shape. -/
theorem C6_fault_propagates :
    ∀ (f : Fault) (auth : Option String),
      (∀ (offset limit : Int) (category_id : String),
        getSyncProducts (mkClient auth) offset limit category_id (faultyRemote f)
          = .error f)
    ∧ (∀ (sp sv : Json),
        createSyncProduct (mkClient auth) sp sv (faultyRemote f) = .error f)
    ∧ (∀ (id : PfId), getSyncProduct (mkClient auth) id (faultyRemote f) = .error f)
    ∧ (∀ (id : PfId), deleteSyncProduct (mkClient auth) id (faultyRemote f) = .error f)
    ∧ (∀ (id : PfId) (sp sv : Json),
        modifySyncProduct (mkClient auth) id sp sv (faultyRemote f) = .error f)
    ∧ (∀ (id : PfId), getSyncVariant (mkClient auth) id (faultyRemote f) = .error f)
    ∧ (∀ (id : PfId), deleteSyncVariant (mkClient auth) id (faultyRemote f) = .error f)
    ∧ (∀ (id : PfId) (sv : Json),
        modifySyncVariant (mkClient auth) id sv (faultyRemote f) = .error f)
    ∧ (∀ (id : PfId) (sv : Json),
        createSyncVariant (mkClient auth) id sv (faultyRemote f) = .error f)
    ∧ (∀ (offset limit : Int),
        getProductTemplates (mkClient auth) offset limit (faultyRemote f) = .error f)
    ∧ (∀ (id : PfId), getProductTemplate (mkClient auth) id (faultyRemote f) = .error f)
    ∧ (∀ (id : PfId),
        deleteProductTemplate (mkClient auth) id (faultyRemote f) = .error f)
    ∧ (∀ (offset limit : Int) (status : String),
        getOrders (mkClient auth) offset limit status (faultyRemote f) = .error f)
    ∧ (∀ (newOrder : Json) (confirm update_existing : Bool),
        createOrder (mkClient auth) newOrder confirm update_existing (faultyRemote f)
          = .error f)
    ∧ (∀ (id : Int) (mockup_task : Json),
        createMockupTask (mkClient auth) id mockup_task (faultyRemote f) = .error f)
    ∧ (∀ (id : Option Int) (o tq : Option String),
        getProductVariantPrintFiles (mkClient auth) id o tq (faultyRemote f) = .error f)
    ∧ (∀ (task_key : String),
        getMockupTaskResult (mkClient auth) task_key (faultyRemote f) = .error f)
    ∧ (∀ (id : Int) (o tq : Option String),
        getLayoutTemplates (mkClient auth) id o tq (faultyRemote f) = .error f) := by
  intro f auth
  refine ⟨?_, ?_, ?_, ?_, ?_, ?_, ?_, ?_, ?_, ?_, ?_, ?_, ?_, ?_, ?_, ?_, ?_, ?_⟩ <;>
    (intros; rfl)

/-- C7: a client built with token `t` (possibly `undefined`) has the fixed
base URL and the single header `Authorization: "Bearer " + (t || "")` — an
absent or empty token producing exactly `"Bearer "` — and every request any
method issues carries exactly those headers.  The embedding is pure: each
method is a function of the immutable `Client` value, so no method can
mutate the base URL or headers for the lifetime of the instance. -/
theorem C7_bearer_header_on_every_request :
    ∀ (auth : Option String),
      (mkClient auth).origin = "https://api.printful.com"
    ∧ (mkClient auth).headers = [("Authorization", "Bearer " ++ auth.getD "")]
    ∧ (mkClient none).headers = [("Authorization", "Bearer ")]
    ∧ (mkClient (some "")).headers = [("Authorization", "Bearer ")]
    ∧ (∀ (offset limit : Int) (category_id : String),
        (getSyncProducts_request (mkClient auth) offset limit category_id).headers
          = [("Authorization", "Bearer " ++ auth.getD "")])
    ∧ (∀ (sp sv : Json),
        (createSyncProduct_request (mkClient auth) sp sv).headers
          = [("Authorization", "Bearer " ++ auth.getD "")])
    ∧ (∀ (id : PfId),
        (getSyncProduct_request (mkClient auth) id).headers
          = [("Authorization", "Bearer " ++ auth.getD "")])
    ∧ (∀ (id : PfId),
        (deleteSyncProduct_request (mkClient auth) id).headers
          = [("Authorization", "Bearer " ++ auth.getD "")])
    ∧ (∀ (id : PfId) (sp sv : Json),
        (modifySyncProduct_request (mkClient auth) id sp sv).headers
          = [("Authorization", "Bearer " ++ auth.getD "")])
    ∧ (∀ (id : PfId),
        (getSyncVariant_request (mkClient auth) id).headers
          = [("Authorization", "Bearer " ++ auth.getD "")])
    ∧ (∀ (id : PfId),
        (deleteSyncVariant_request (mkClient auth) id).headers
          = [("Authorization", "Bearer " ++ auth.getD "")])
    ∧ (∀ (id : PfId) (sv : Json),
        (modifySyncVariant_request (mkClient auth) id sv).headers
          = [("Authorization", "Bearer " ++ auth.getD "")])
    ∧ (∀ (id : PfId) (sv : Json),
        (createSyncVariant_request (mkClient auth) id sv).headers
          = [("Authorization", "Bearer " ++ auth.getD "")])
    ∧ (∀ (offset limit : Int),
        (getProductTemplates_request (mkClient auth) offset limit).headers
          = [("Authorization", "Bearer " ++ auth.getD "")])
    ∧ (∀ (id : PfId),
        (getProductTemplate_request (mkClient auth) id).headers
          = [("Authorization", "Bearer " ++ auth.getD "")])
    ∧ (∀ (id : PfId),
        (deleteProductTemplate_request (mkClient auth) id).headers
          = [("Authorization", "Bearer " ++ auth.getD "")])
    ∧ (∀ (offset limit : Int) (status : String),
        (getOrders_request (mkClient auth) offset limit status).headers
          = [("Authorization", "Bearer " ++ auth.getD "")])
    ∧ (∀ (newOrder : Json) (confirm update_existing : Bool),
        (createOrder_request (mkClient auth) newOrder confirm update_existing).headers
          = [("Authorization", "Bearer " ++ auth.getD "")])
    ∧ (∀ (id : Int) (mockup_task : Json),
        (createMockupTask_request (mkClient auth) id mockup_task).headers
          = [("Authorization", "Bearer " ++ auth.getD "")])
    ∧ (∀ (id : Option Int) (o tq : Option String),
        (getProductVariantPrintFiles_request (mkClient auth) id o tq).headers
          = [("Authorization", "Bearer " ++ auth.getD "")])
    ∧ (∀ (task_key : String),
        (getMockupTaskResult_request (mkClient auth) task_key).headers
          = [("Authorization", "Bearer " ++ auth.getD "")])
    ∧ (∀ (id : Int) (o tq : Option String),
        (getLayoutTemplates_request (mkClient auth) id o tq).headers
          = [("Authorization", "Bearer " ++ auth.getD "")]) := by
  intro auth
  refine ⟨rfl, rfl, rfl, rfl, ?_, ?_, ?_, ?_, ?_, ?_, ?_, ?_, ?_, ?_, ?_, ?_, ?_, ?_, ?_,
    ?_, ?_, ?_⟩ <;> (intros; rfl)

/-- C8: issuing the same GET-style read endpoint twice with identical
parameters against an unchanged remote (the same envelope returned both
times) yields identical normalized results. -/
theorem C8_get_idempotent :
    ∀ (auth : Option String) (e₁ e₂ : Envelope), e₁ = e₂ →
      (∀ (offset limit : Int) (category_id : String),
        getSyncProducts (mkClient auth) offset limit category_id (mockRemote e₁)
          = getSyncProducts (mkClient auth) offset limit category_id (mockRemote e₂))
    ∧ (∀ (id : PfId),
        getSyncProduct (mkClient auth) id (mockRemote e₁)
          = getSyncProduct (mkClient auth) id (mockRemote e₂))
    ∧ (∀ (id : PfId),
        getSyncVariant (mkClient auth) id (mockRemote e₁)
          = getSyncVariant (mkClient auth) id (mockRemote e₂))
    ∧ (∀ (offset limit : Int),
        getProductTemplates (mkClient auth) offset limit (mockRemote e₁)
          = getProductTemplates (mkClient auth) offset limit (mockRemote e₂))
    ∧ (∀ (id : PfId),
        getProductTemplate (mkClient auth) id (mockRemote e₁)
          = getProductTemplate (mkClient auth) id (mockRemote e₂))
    ∧ (∀ (offset limit : Int) (status : String),
        getOrders (mkClient auth) offset limit status (mockRemote e₁)
          = getOrders (mkClient auth) offset limit status (mockRemote e₂))
    ∧ (∀ (id : Option Int) (o tq : Option String),
        getProductVariantPrintFiles (mkClient auth) id o tq (mockRemote e₁)
          = getProductVariantPrintFiles (mkClient auth) id o tq (mockRemote e₂))
    ∧ (∀ (task_key : String),
        getMockupTaskResult (mkClient auth) task_key (mockRemote e₁)
          = getMockupTaskResult (mkClient auth) task_key (mockRemote e₂))
    ∧ (∀ (id : Int) (o tq : Option String),
        getLayoutTemplates (mkClient auth) id o tq (mockRemote e₁)
          = getLayoutTemplates (mkClient auth) id o tq (mockRemote e₂)) := by
  intro auth e₁ e₂ h
  subst h
  refine ⟨?_, ?_, ?_, ?_, ?_, ?_, ?_, ?_, ?_⟩ <;> (intros; rfl)

/-- C8, witness: two `getSyncProduct(7)` calls against the same concrete
envelope agree. -/
theorem C8_get_idempotent_witness :
    getSyncProduct (mkClient none) (.intId 7)
      (mockRemote { code := 200, result := Json.obj [] })
      = getSyncProduct (mkClient none) (.intId 7)
          (mockRemote { code := 200, result := Json.obj [] }) :=
  (C8_get_idempotent none { code := 200, result := Json.obj [] }
    { code := 200, result := Json.obj [] } rfl).2.1 (.intId 7)

/-- C9: empty/undefined optional query parameters are omitted from the
built URL entirely: `getSyncProducts` with `category_id = ""` has no
`category_id` parameter (and has one exactly when the argument is
non-empty); `getProductVariantPrintFiles` and `getLayoutTemplates` with
absent or empty `orientation`/`technique` leave the query string empty,
and append the parameter only when it is a non-empty string. -/
theorem C9_optional_params_omitted :
    (∀ (auth : Option String) (offset limit : Int),
      (getSyncProducts_request (mkClient auth) offset limit "").url
        = "https://api.printful.com/store/products?offset=" ++ jsInt offset
          ++ "&limit=" ++ jsInt limit)
  ∧ (∀ (auth : Option String) (offset limit : Int) (category_id : String),
      category_id ≠ "" →
      (getSyncProducts_request (mkClient auth) offset limit category_id).url
        = "https://api.printful.com/store/products?offset=" ++ jsInt offset
          ++ "&limit=" ++ jsInt limit ++ ("&category_id=" ++ category_id))
  ∧ (∀ (auth : Option String) (id : Option Int),
      (getProductVariantPrintFiles_request (mkClient auth) id none none).url
        = "https://api.printful.com/mockup-generator/printfiles/" ++ jsOptInt id ++ "?")
  ∧ (∀ (auth : Option String) (id : Option Int),
      (getProductVariantPrintFiles_request (mkClient auth) id (some "") (some "")).url
        = "https://api.printful.com/mockup-generator/printfiles/" ++ jsOptInt id ++ "?")
  ∧ (∀ (auth : Option String) (id : Option Int),
      (getProductVariantPrintFiles_request (mkClient auth) id (some "horizontal") none).url
        = "https://api.printful.com/mockup-generator/printfiles/" ++ jsOptInt id
          ++ "?" ++ "orientation=horizontal")
  ∧ (∀ (auth : Option String) (id : Int),
      (getLayoutTemplates_request (mkClient auth) id none none).url
        = "https://api.printful.com/mockup-generator/templates/" ++ jsInt id ++ "?")
  ∧ (∀ (auth : Option String) (id : Int),
      (getLayoutTemplates_request (mkClient auth) id none (some "embroidery")).url
        = "https://api.printful.com/mockup-generator/templates/" ++ jsInt id
          ++ "?" ++ "technique=embroidery") := by
  refine ⟨?_, ?_, ?_, ?_, ?_, ?_, ?_⟩
  · intro auth offset limit
    have h : (getSyncProducts_request (mkClient auth) offset limit "").url
        = ("https://api.printful.com/store/products?offset=" ++ jsInt offset
            ++ "&limit=" ++ jsInt limit) ++ "" := rfl
    rw [h, String.append_empty]
  · intro auth offset limit category_id hc
    have h : (getSyncProducts_request (mkClient auth) offset limit category_id).url
        = "https://api.printful.com/store/products?offset=" ++ jsInt offset
          ++ "&limit=" ++ jsInt limit
          ++ (if category_id ≠ "" then "&category_id=" ++ category_id else "") := rfl
    rw [h, if_pos hc]
  · intro auth id
    have h : (getProductVariantPrintFiles_request (mkClient auth) id none none).url
        = ("https://api.printful.com/mockup-generator/printfiles/" ++ jsOptInt id ++ "?")
          ++ "" := rfl
    rw [h, String.append_empty]
  · intro auth id
    have h : (getProductVariantPrintFiles_request (mkClient auth) id
          (some "") (some "")).url
        = ("https://api.printful.com/mockup-generator/printfiles/" ++ jsOptInt id ++ "?")
          ++ "" := rfl
    rw [h, String.append_empty]
  · intro auth id
    exact rfl
  · intro auth id
    have h : (getLayoutTemplates_request (mkClient auth) id none none).url
        = ("https://api.printful.com/mockup-generator/templates/" ++ jsInt id ++ "?")
          ++ "" := rfl
    rw [h, String.append_empty]
  · intro auth id
    exact rfl

/-- C9, witness: the non-empty-`category_id` conjunct at concrete inputs,
and the empty-`category_id` conjunct evaluated concretely. -/
theorem C9_optional_params_omitted_witness :
    (getSyncProducts_request (mkClient none) 0 20 "5,12").url
      = "https://api.printful.com/store/products?offset=" ++ jsInt 0
        ++ "&limit=" ++ jsInt 20 ++ ("&category_id=" ++ "5,12") :=
  C9_optional_params_omitted.2.1 none 0 20 "5,12" (by decide)

/-- C10: `getProductVariantPrintFiles` with the product id omitted
(JS `undefined`) still builds and issues the request; the path segment is
the literal string "undefined", i.e. the URL is
`origin + "/mockup-generator/printfiles/undefined?" + query`, and the call
completes normally against any envelope. -/
theorem C10_undefined_id_in_path :
    ∀ (auth : Option String) (o tq : Option String) (e : Envelope),
      (∃ q, (getProductVariantPrintFiles_request (mkClient auth) none o tq).url
        = "https://api.printful.com/mockup-generator/printfiles/undefined?" ++ q)
    ∧ (getProductVariantPrintFiles_request (mkClient auth) none none none).url
        = "https://api.printful.com/mockup-generator/printfiles/undefined?"
    ∧ ∃ r, getProductVariantPrintFiles (mkClient auth) none o tq (mockRemote e)
        = .ok r := by
  intro auth o tq e
  refine ⟨⟨_, rfl⟩, ?_, ⟨_, rfl⟩⟩
  have h : (getProductVariantPrintFiles_request (mkClient auth) none none none).url
      = ("https://api.printful.com/mockup-generator/printfiles/undefined?" : String)
        ++ "" := rfl
  rw [h, String.append_empty]

end Printful
